import Mathlib

/-!
Shallow embedding of the resume-matcher ranking engine
(`src/text_similarity.py` and `src/job_matcher.py`).

Python floats are modelled as rationals (`ℚ`), Python `ValueError` as
`Except.error`, Python dict-shaped records as Lean structures.  The scoring
code of the repository is pure; the only external library call inside the
engine is the scikit-learn pair `TfidfVectorizer` / `cosine_similarity`, which is
not code of this repository and is modelled as an explicit function
parameter `tfidfFn` (see `calculate_tfidf_similarity`).
-/

namespace ResumeMatcher

/-! ### Text normalization: `TextSimilarityEngine.preprocess_text`
The NLTK-fallback path is modelled (module constant `NLTK_AVAILABLE = False`):
the fixed 14-word stop list and whitespace splitting. -/

/-- Models Python `str.lower` on the ASCII range: uppercase ASCII letters
map to their lowercase forms, every other character is unchanged. -/
def lowerChar (c : Char) : Char :=
  if 65 ≤ c.toNat ∧ c.toNat ≤ 90 then Char.ofNat (c.toNat + 32) else c

/-- The character class kept by the substitution step, whose pattern is the
raw string regex class excluding a-z, A-Z, 0-9, a double backslash and s.
In a raw string the double backslash is a literal backslash followed by the
letter `s` (not the whitespace class): the kept characters are `a-z`, `A-Z`,
`0-9`, the backslash (code 92) and `s` (code 115, already in `a-z`).
Every other character — whitespace included — is replaced by one space. -/
def keptChar (c : Char) : Bool :=
  (97 ≤ c.toNat && c.toNat ≤ 122) || (65 ≤ c.toNat && c.toNat ≤ 90) ||
    (48 ≤ c.toNat && c.toNat ≤ 57) || c.toNat == 92 || c.toNat == 115

/-- Splits a character list into maximal runs of non-space characters,
models Python `str.split()` on the substituted text (after the `re.sub`
above, the space is the only whitespace character left).  The second
argument accumulates the current run in reverse. -/
def splitWords : List Char → List Char → List String
  | [], cur => if cur.isEmpty then [] else [String.mk cur.reverse]
  | c :: cs, cur =>
    if c = ' ' then
      if cur.isEmpty then splitWords cs [] else String.mk cur.reverse :: splitWords cs []
    else splitWords cs (c :: cur)

/-- The fallback stop-word list of `text_similarity.py` (used when NLTK is
not importable). -/
def stop_words : List String :=
  ["the", "a", "an", "and", "or", "but", "in", "on", "at", "to", "for", "of", "with", "by"]

/-- Token sequence produced by `TextSimilarityEngine.preprocess_text`:
lowercase, substitute characters outside the kept class by a space, split on
whitespace, and keep a word iff it is not a stop word and its length
exceeds 2 (the Python condition `word not in self.stop_words and
len(word) > 2`). -/
def preprocess_tokens (text : String) : List String :=
  let lowered := text.data.map lowerChar
  let subbed := lowered.map fun c => if keptChar c then c else ' '
  (splitWords subbed []).filter fun w => !(stop_words.contains w) && 2 < w.length

/-- Returns the tokens joined by single spaces, as `preprocess_text` does
with the Python join of `filtered_words`; the empty input yields `""`. -/
def preprocess_text (text : String) : String :=
  String.intercalate " " (preprocess_tokens text)

/-! ### Jaccard similarity: `TextSimilarityEngine.calculate_jaccard_similarity` -/

/-- The normalized token set of a text, `set(preprocess_text(x).split())`:
tokens contain no space and are nonempty, so splitting the joined string
recovers `preprocess_tokens` and the set is its deduplication. -/
def tokenSet (text : String) : Finset String :=
  (preprocess_tokens text).toFinset

/-- Embedding of `calculate_jaccard_similarity`: `0.0` when either token
set is empty, otherwise `|intersection| / |union|` (keeping the redundant
ternary guard on the union that the code carries).  The `try/except` wrapper of the
source cannot fire: the body is total. -/
def calculate_jaccard_similarity (resume_text job_description : String) : ℚ :=
  let resume_words := tokenSet resume_text
  let job_words := tokenSet job_description
  if resume_words = ∅ ∨ job_words = ∅ then 0
  else
    let inter := resume_words ∩ job_words
    let union := resume_words ∪ job_words
    if union = ∅ then 0 else (inter.card : ℚ) / (union.card : ℚ)

/-! ### Keyword coverage: `TextSimilarityEngine.calculate_keyword_match_score` -/

/-- Python `str.lower` applied to a whole string. -/
def lowerStr (s : String) : String :=
  String.mk (s.data.map lowerChar)

/-- Tests whether the second list is an initial segment of the first,
models the inner step of Python substring search. -/
def startsWithL : List Char → List Char → Bool
  | _, [] => true
  | [], _ :: _ => false
  | c :: cs, d :: ds => c == d && startsWithL cs ds

/-- Tests whether `p` occurs as a contiguous run inside `s`, models the
Python expression `p in s` on strings. -/
def hasSubstr : List Char → List Char → Bool
  | [], p => p.isEmpty
  | c :: cs, p => startsWithL (c :: cs) p || hasSubstr cs p

/-- Embedding of `calculate_keyword_match_score`: `0.0` on an empty keyword
list or empty raw text, otherwise the fraction of keywords whose lowercase
form occurs as a substring of the lowercase raw text. -/
def calculate_keyword_match_score (resume_text : String) (job_keywords : List String) : ℚ :=
  if job_keywords = [] ∨ resume_text = "" then 0
  else
    let resume_lower := lowerStr resume_text
    let matched :=
      (job_keywords.filter fun keyword => hasSubstr resume_lower.data (lowerStr keyword).data).length
    (matched : ℚ) / (job_keywords.length : ℚ)

/-! ### TF-IDF similarity: `TextSimilarityEngine.calculate_tfidf_similarity` -/

/-- Embedding of `calculate_tfidf_similarity`.  The guard models the check
`if not resume_processed or not job_processed: return 0.0`; the remaining
body (`TfidfVectorizer(max_features=1000, ngram_range=(1, 2))` followed by
`cosine_similarity`) is a scikit-learn library call, not code of this
repository, and is modelled by the explicit parameter `tfidfFn` applied to
the two preprocessed texts. -/
def calculate_tfidf_similarity (tfidfFn : String → String → ℚ)
    (resume_text job_description : String) : ℚ :=
  let resume_processed := preprocess_text resume_text
  let job_processed := preprocess_text job_description
  if resume_processed = "" ∨ job_processed = "" then 0
  else tfidfFn resume_processed job_processed

/-! ### Score fusion: `TextSimilarityEngine.calculate_composite_score` -/

/-- The per-signal score record returned by `calculate_composite_score`. -/
structure ScoreBreakdown where
  composite_score : ℚ
  tfidf_score : ℚ
  jaccard_score : ℚ
  keyword_score : ℚ
deriving DecidableEq

/-- The caller-supplied weights dictionary: each key may be absent
(`Option`), and an absent key falls back to the default of `dict.get`. -/
structure Weights where
  tfidf : Option ℚ
  jaccard : Option ℚ
  keyword : Option ℚ
deriving DecidableEq

/-- The default weight dictionary mapping tfidf to 0.4, jaccard to 0.3 and
keyword to 0.3, substituted when the caller passes `weights=None`. -/
def defaultWeights : Weights :=
  ⟨some 0.4, some 0.3, some 0.3⟩

/-- Embedding of `calculate_composite_score`.  `job_keywords = []` covers
both Python falsy cases (`None` and the empty list) of `if job_keywords:`;
a missing weight key falls back to the same defaults used for `weights=None`
(the dict get calls supply 0.4, 0.3 and 0.3 as fallback values). -/
def calculate_composite_score (tfidfFn : String → String → ℚ)
    (resume_text job_description : String) (job_keywords : List String)
    (weights : Option Weights) : ScoreBreakdown :=
  let w := weights.getD defaultWeights
  let tfidf_score := calculate_tfidf_similarity tfidfFn resume_text job_description
  let jaccard_score := calculate_jaccard_similarity resume_text job_description
  let keyword_score :=
    if job_keywords ≠ [] then calculate_keyword_match_score resume_text job_keywords else 0
  ⟨w.tfidf.getD 0.4 * tfidf_score + w.jaccard.getD 0.3 * jaccard_score +
      w.keyword.getD 0.3 * keyword_score,
    tfidf_score, jaccard_score, keyword_score⟩

/-! ### Ranking: `ResumeRanker.rank_resumes` -/

/-- A parsed resume record: the fields of the loosely-shaped Python dict
that the scoring pipeline reads (`raw_text` defaults to the empty string
via the dict get call, `parsing_success` defaults to `False`). -/
structure Resume where
  filename : String
  raw_text : String
  parsing_success : Bool
deriving DecidableEq

/-- A resume joined with its score breakdown, models the copied dict
`resume_with_scores` that `rank_resumes` appends to its output. -/
structure ScoredResume where
  resume : Resume
  scores : ScoreBreakdown
deriving DecidableEq

/-- The all-zero breakdown assigned to a resume with empty `raw_text`. -/
def zeroScores : ScoreBreakdown :=
  ⟨0, 0, 0, 0⟩

/-- The per-resume step of `rank_resumes`: an empty `raw_text` short-circuits
to the all-zero breakdown, otherwise `calculate_composite_score` runs with
default weights.  The `try/except` of the source cannot fire: the body is
total, so the `scoring_error` branch is unreachable. -/
def scoreResume (tfidfFn : String → String → ℚ) (job_description : String)
    (job_keywords : List String) (r : Resume) : ScoredResume :=
  if r.raw_text = "" then ⟨r, zeroScores⟩
  else ⟨r, calculate_composite_score tfidfFn r.raw_text job_description job_keywords none⟩

/-- The sort order of the ranking sort call, which sorts with the composite
score as key and `reverse=True`: descending by composite score. -/
def rankRel (a b : ScoredResume) : Prop :=
  b.scores.composite_score ≤ a.scores.composite_score

instance : DecidableRel rankRel :=
  fun a b => inferInstanceAs (Decidable (b.scores.composite_score ≤ a.scores.composite_score))

instance : IsTotal ScoredResume rankRel :=
  ⟨fun _ _ => le_total _ _⟩

instance : IsTrans ScoredResume rankRel :=
  ⟨fun _ _ _ h1 h2 => le_trans h2 h1⟩

/-- Embedding of `rank_resumes`: score every resume, then sort descending by
composite score.  The Python `list.sort` is stable and `reverse=True` keeps
equal elements in input order, which is exactly `List.insertionSort` with
the non-strict relation `rankRel` (the head is inserted before later equal
elements). -/
def rank_resumes (tfidfFn : String → String → ℚ) (resumes : List Resume)
    (job_description : String) (job_keywords : List String) : List ScoredResume :=
  if resumes = [] then []
  else List.insertionSort rankRel (resumes.map (scoreResume tfidfFn job_description job_keywords))

/-! ### Report assembly: `JobMatcher.match_resumes_to_job` -/

/-- The loaded job description record (`load_job_description` guarantees the
`title` and `keywords` defaults, so all three fields are present). -/
structure JobData where
  title : String
  description : String
  keywords : List String
deriving DecidableEq

/-- The `statistics` block of the results dict. -/
structure Statistics where
  max_score : ℚ
  min_score : ℚ
  avg_score : ℚ
  median_score : ℚ
deriving DecidableEq

/-- The results dict built by `match_resumes_to_job` (the `timestamp` field
is wall-clock output and is not modelled). -/
structure MatchReport where
  job_info : JobData
  total_resumes : ℕ
  valid_resumes : ℕ
  failed_resumes : ℕ
  qualified_resumes : ℕ
  threshold : ℚ
  ranked_resumes : List ScoredResume
  top_candidates : List ScoredResume
  failed_parsing : List Resume
  statistics : Option Statistics
deriving DecidableEq

/-- Python `max` over a nonempty list (the unreachable `[]` case returns 0). -/
def listMax : List ℚ → ℚ
  | [] => 0
  | x :: xs => xs.foldl max x

/-- Python `min` over a nonempty list (the unreachable `[]` case returns 0). -/
def listMin : List ℚ → ℚ
  | [] => 0
  | x :: xs => xs.foldl min x

/-- Python `sum`: left fold of addition starting at 0. -/
def listSum (l : List ℚ) : ℚ :=
  l.foldl (· + ·) 0

/-- Python `sorted`: ascending stable sort (on rationals stability is
irrelevant, equal elements are identical). -/
def sortAscQ : List ℚ → List ℚ :=
  List.insertionSort fun a b : ℚ => a ≤ b

/-- The statistics block computed over the nonzero composite scores:
`max(scores)`, `min(scores)`, `sum(scores) / len(scores)`, and
`sorted(scores)[len(scores) // 2]` (integer floor division). -/
def computeStatistics (scores : List ℚ) : Statistics :=
  ⟨listMax scores, listMin scores, listSum scores / (scores.length : ℚ),
    (sortAscQ scores).getD (scores.length / 2) 0⟩

/-- Embedding of `match_resumes_to_job`.  The two `raise ValueError(...)`
guards become `Except.error`; everything after them is pure record
construction, so a returned report is always complete (no partial report
can be observed). -/
def match_resumes_to_job (tfidfFn : String → String → ℚ) (resumes : List Resume)
    (job_data : JobData) (threshold : ℚ) : Except String MatchReport :=
  if resumes = [] then Except.error "No resumes provided"
  else if job_data.description = "" then Except.error "Job description is empty"
  else
    let valid_resumes := resumes.filter fun r => r.parsing_success
    let failed_resumes := resumes.filter fun r => !r.parsing_success
    let ranked_resumes :=
      if valid_resumes ≠ [] then
        rank_resumes tfidfFn valid_resumes job_data.description job_data.keywords
      else []
    let qualified_resumes :=
      ranked_resumes.filter fun r => threshold ≤ r.scores.composite_score
    let scores :=
      (ranked_resumes.map fun r => r.scores.composite_score).filter fun s => 0 < s
    let statistics :=
      if ranked_resumes ≠ [] ∧ scores ≠ [] then some (computeStatistics scores) else none
    Except.ok
      ⟨job_data, resumes.length, valid_resumes.length, failed_resumes.length,
        qualified_resumes.length, threshold, ranked_resumes, qualified_resumes.take 10,
        failed_resumes, statistics⟩

/-- Projects the error message of a pipeline result (`none` on success):
used to state which inputs raise `ValueError` and which do not. -/
def errOf : Except String MatchReport → Option String
  | Except.error s => some s
  | Except.ok _ => none

/-- Projects the statistics block of a successful pipeline result. -/
def statsOf : Except String MatchReport → Option Statistics
  | Except.error _ => none
  | Except.ok r => r.statistics

/-- The nonzero composite scores of a report, the list the statistics block
is computed over. -/
def nzScores (rep : MatchReport) : List ℚ :=
  (rep.ranked_resumes.map fun r => r.scores.composite_score).filter fun s => 0 < s

/-! ### Concrete scenario inputs used by witnesses and counterexamples.
The TF-IDF model functions below pick fixed values per preprocessed
document; the query `"zzzz"` shares no token with any document, so the
Jaccard signal is 0, the keyword lists are empty, and each composite score
is 0.4 times the modelled TF-IDF value. -/

/-- A TF-IDF model that returns 0 everywhere (also a valid cosine value). -/
def tfZero : String → String → ℚ := fun _ _ => 0

/-- TF-IDF model for the statistics scenario: values chosen so that the four
composite scores come out as 0.2, 0.4, 0.6, 0.8. -/
def tfC1 : String → String → ℚ := fun d _ =>
  if d = "aaaa" then 1/2 else if d = "bbbb" then 1 else if d = "cccc" then 3/2 else 2

/-- Four successfully parsed resumes with pairwise distinct texts. -/
def rsC1 : List Resume :=
  [⟨"r0", "aaaa", true⟩, ⟨"r1", "bbbb", true⟩, ⟨"r2", "cccc", true⟩, ⟨"r3", "dddd", true⟩]

/-- A job whose description shares no token with any of the resumes. -/
def jobC1 : JobData := ⟨"Job", "zzzz", []⟩

/-- Scored form of the four resumes of `rsC1` (composites 0.2, 0.4, 0.6, 0.8). -/
def sC10 : ScoredResume := ⟨⟨"r0", "aaaa", true⟩, ⟨1/5, 1/2, 0, 0⟩⟩

/-- Scored resume `r1` of the statistics scenario. -/
def sC11 : ScoredResume := ⟨⟨"r1", "bbbb", true⟩, ⟨2/5, 1, 0, 0⟩⟩

/-- Scored resume `r2` of the statistics scenario. -/
def sC12 : ScoredResume := ⟨⟨"r2", "cccc", true⟩, ⟨3/5, 3/2, 0, 0⟩⟩

/-- Scored resume `r3` of the statistics scenario. -/
def sC13 : ScoredResume := ⟨⟨"r3", "dddd", true⟩, ⟨4/5, 2, 0, 0⟩⟩

/-- The statistics block the code produces for nonzero scores
0.2, 0.4, 0.6, 0.8: the median is the upper-middle element 0.6. -/
def stC1 : Statistics := ⟨4/5, 1/5, 1/2, 3/5⟩

/-- The full report produced for the statistics scenario at threshold 0.3. -/
def repC1 : MatchReport :=
  ⟨jobC1, 4, 4, 0, 3, 3/10, [sC13, sC12, sC11, sC10], [sC13, sC12, sC11], [], some stC1⟩

/-- TF-IDF model for the stable-tie scenario: composites 0.9, 0.5, 0.9. -/
def tfC6 : String → String → ℚ := fun d _ =>
  if d = "aaaa" then 9/4 else if d = "bbbb" then 5/4 else 9/4

/-- The three documents of the stable-tie scenario, in input order. -/
def rsC6 : List Resume :=
  [⟨"doc0", "aaaa", true⟩, ⟨"doc1", "bbbb", true⟩, ⟨"doc2", "cccc", true⟩]

/-- Scored document 0 of the stable-tie scenario (composite 0.9). -/
def sC6A : ScoredResume := ⟨⟨"doc0", "aaaa", true⟩, ⟨9/10, 9/4, 0, 0⟩⟩

/-- Scored document 1 of the stable-tie scenario (composite 0.5). -/
def sC6B : ScoredResume := ⟨⟨"doc1", "bbbb", true⟩, ⟨1/2, 5/4, 0, 0⟩⟩

/-- Scored document 2 of the stable-tie scenario (composite 0.9). -/
def sC6C : ScoredResume := ⟨⟨"doc2", "cccc", true⟩, ⟨9/10, 9/4, 0, 0⟩⟩

/-- A successfully parsed resume whose extracted text is empty. -/
def rEmpty : Resume := ⟨"empty", "", true⟩

/-! ### Helper lemmas -/

/-- A Boolean filter and its negation partition a list by length. -/
theorem length_filter_partition {α : Type} (p : α → Bool) (l : List α) :
    (l.filter p).length + (l.filter fun a => !p a).length = l.length :=
  (List.length_eq_length_filter_add p).symm

/-- The error projection of `match_resumes_to_job`: exactly the two
`ValueError` guards of the source, in their order. -/
theorem errOf_match (tf : String → String → ℚ) (rs : List Resume) (job : JobData) (thr : ℚ) :
    errOf (match_resumes_to_job tf rs job thr) =
      if rs = [] then some "No resumes provided"
      else if job.description = "" then some "Job description is empty"
      else none := by
  unfold match_resumes_to_job
  split_ifs with h1 h2 <;> rfl

/-- Inserting into a list keeps the filtered sublist at any fixed composite
score: skipped elements have strictly larger scores. -/
theorem filter_orderedInsert_key (q : ℚ) (x : ScoredResume) (l : List ScoredResume) :
    (List.orderedInsert rankRel x l).filter (fun r => r.scores.composite_score = q)
      = (if x.scores.composite_score = q then [x] else []) ++
          l.filter (fun r => r.scores.composite_score = q) := by
  induction l with
  | nil =>
    by_cases h : x.scores.composite_score = q <;>
      simp [List.orderedInsert, List.filter, h]
  | cons y ys ih =>
    by_cases hr : rankRel x y
    · rw [List.orderedInsert, if_pos hr]
      by_cases h : x.scores.composite_score = q <;>
        simp [List.filter, h]
    · rw [List.orderedInsert, if_neg hr]
      have hlt : x.scores.composite_score < y.scores.composite_score := by
        have := lt_of_not_le hr
        exact this
      by_cases hy : y.scores.composite_score = q
      · have hx : ¬ x.scores.composite_score = q := by
          intro h
          rw [h, hy] at hlt
          exact lt_irrefl _ hlt
        simp [List.filter, hy, hx, ih]
      · by_cases hx : x.scores.composite_score = q <;>
          simp [List.filter, hy, hx, ih]

/-- Stability of the descending sort: the sublist of entries at any fixed
composite score is unchanged by sorting. -/
theorem filter_insertionSort_key (q : ℚ) (l : List ScoredResume) :
    (List.insertionSort rankRel l).filter (fun r => r.scores.composite_score = q)
      = l.filter (fun r => r.scores.composite_score = q) := by
  induction l with
  | nil => rfl
  | cons x xs ih =>
    rw [List.insertionSort, filter_orderedInsert_key, ih]
    by_cases h : x.scores.composite_score = q <;> simp [List.filter, h]

/-- The Jaccard similarity always lies in `[0, 1]`. -/
theorem jaccard_bounds (a b : String) :
    0 ≤ calculate_jaccard_similarity a b ∧ calculate_jaccard_similarity a b ≤ 1 := by
  unfold calculate_jaccard_similarity
  dsimp only
  split_ifs with h1 h2
  · norm_num
  · norm_num
  · have hne : tokenSet a ≠ ∅ := fun h => h1 (Or.inl h)
    have hu : tokenSet a ∪ tokenSet b ≠ ∅ := h2
    have hcard : 0 < (tokenSet a ∪ tokenSet b).card :=
      Finset.card_pos.mpr (Finset.nonempty_iff_ne_empty.mpr hu)
    have hposQ : (0 : ℚ) < ((tokenSet a ∪ tokenSet b).card : ℚ) := by
      exact_mod_cast hcard
    constructor
    · exact div_nonneg (Nat.cast_nonneg _) (le_of_lt hposQ)
    · rw [div_le_one hposQ]
      exact_mod_cast Finset.card_le_card (Finset.inter_subset_union)

/-- The keyword coverage always lies in `[0, 1]`. -/
theorem keyword_bounds (rt : String) (kws : List String) :
    0 ≤ calculate_keyword_match_score rt kws ∧ calculate_keyword_match_score rt kws ≤ 1 := by
  unfold calculate_keyword_match_score
  split_ifs with h1
  · norm_num
  · have hne : kws ≠ [] := fun h => h1 (Or.inl h)
    have hlen : 0 < kws.length := List.length_pos.mpr hne
    have hposQ : (0 : ℚ) < (kws.length : ℚ) := by exact_mod_cast hlen
    constructor
    · exact div_nonneg (Nat.cast_nonneg _) (le_of_lt hposQ)
    · rw [div_le_one hposQ]
      exact_mod_cast List.length_filter_le _ kws

/-- The modelled TF-IDF similarity lies in `[0, 1]` whenever the external
vectorizer model does. -/
theorem tfidf_bounds (tf : String → String → ℚ)
    (hT : ∀ x y, 0 ≤ tf x y ∧ tf x y ≤ 1) (rt jd : String) :
    0 ≤ calculate_tfidf_similarity tf rt jd ∧ calculate_tfidf_similarity tf rt jd ≤ 1 := by
  unfold calculate_tfidf_similarity
  dsimp only
  split_ifs with h
  · norm_num
  · exact hT _ _

/-- The Jaccard similarity of texts whose token sets do not overlap is 0
(in both the empty-guard branch and the ratio branch). -/
theorem jaccard_zero_of_no_overlap (a b : String)
    (hd : (tokenSet a ∩ tokenSet b).card = 0) :
    calculate_jaccard_similarity a b = 0 := by
  unfold calculate_jaccard_similarity
  dsimp only
  split_ifs with h1 h2
  · rfl
  · rfl
  · rw [hd, Nat.cast_zero, zero_div]

/-- Evaluation of the composite score with empty keywords and zero Jaccard:
only the TF-IDF signal contributes. -/
theorem composite_eval_noKw (tf : String → String → ℚ) (rt jd : String) (v : ℚ)
    (hrt : ¬ preprocess_text rt = "") (hjd : ¬ preprocess_text jd = "")
    (htf : tf (preprocess_text rt) (preprocess_text jd) = v)
    (hj : calculate_jaccard_similarity rt jd = 0) :
    calculate_composite_score tf rt jd [] none = ⟨0.4 * v, v, 0, 0⟩ := by
  have ht : calculate_tfidf_similarity tf rt jd = v := by
    unfold calculate_tfidf_similarity
    dsimp only
    rw [if_neg (by tauto), htf]
  have e : calculate_composite_score tf rt jd [] none
      = ⟨0.4 * calculate_tfidf_similarity tf rt jd
            + 0.3 * calculate_jaccard_similarity rt jd + 0.3 * 0,
          calculate_tfidf_similarity tf rt jd, calculate_jaccard_similarity rt jd, 0⟩ := rfl
  rw [e, ht, hj]
  simp only [ScoreBreakdown.mk.injEq, and_true, true_and, and_self]
  ring

/-- Evaluation of `scoreResume` on a non-empty text with empty keywords and
zero Jaccard. -/
theorem scoreResume_eval (tf : String → String → ℚ) (jd fn rt : String) (v : ℚ)
    (ps : Bool) (hne : ¬ rt = "")
    (hrt : ¬ preprocess_text rt = "") (hjd : ¬ preprocess_text jd = "")
    (htf : tf (preprocess_text rt) (preprocess_text jd) = v)
    (hj : calculate_jaccard_similarity rt jd = 0) :
    scoreResume tf jd [] ⟨fn, rt, ps⟩ = ⟨⟨fn, rt, ps⟩, ⟨0.4 * v, v, 0, 0⟩⟩ := by
  unfold scoreResume
  dsimp only
  rw [if_neg hne, composite_eval_noKw tf rt jd v hrt hjd htf hj]

/-- Full evaluation of the statistics scenario: the pipeline on the four
resumes of `rsC1` yields the report `repC1`. -/
theorem matchC1_eval :
    match_resumes_to_job tfC1 rsC1 jobC1 (3/10) = Except.ok repC1 := by
  have hp : preprocess_text "zzzz" = "zzzz" := by decide
  have h0 : scoreResume tfC1 "zzzz" [] ⟨"r0", "aaaa", true⟩
      = ⟨⟨"r0", "aaaa", true⟩, ⟨0.4 * (1/2), 1/2, 0, 0⟩⟩ := by
    refine scoreResume_eval tfC1 "zzzz" "r0" "aaaa" (1/2) true (by decide) (by decide)
      (by decide) ?_ (jaccard_zero_of_no_overlap _ _ (by decide))
    rw [show preprocess_text "aaaa" = "aaaa" from by decide, hp]
    rfl
  have h1 : scoreResume tfC1 "zzzz" [] ⟨"r1", "bbbb", true⟩
      = ⟨⟨"r1", "bbbb", true⟩, ⟨0.4 * 1, 1, 0, 0⟩⟩ := by
    refine scoreResume_eval tfC1 "zzzz" "r1" "bbbb" 1 true (by decide) (by decide)
      (by decide) ?_ (jaccard_zero_of_no_overlap _ _ (by decide))
    rw [show preprocess_text "bbbb" = "bbbb" from by decide, hp]
    rfl
  have h2 : scoreResume tfC1 "zzzz" [] ⟨"r2", "cccc", true⟩
      = ⟨⟨"r2", "cccc", true⟩, ⟨0.4 * (3/2), 3/2, 0, 0⟩⟩ := by
    refine scoreResume_eval tfC1 "zzzz" "r2" "cccc" (3/2) true (by decide) (by decide)
      (by decide) ?_ (jaccard_zero_of_no_overlap _ _ (by decide))
    rw [show preprocess_text "cccc" = "cccc" from by decide, hp]
    rfl
  have h3 : scoreResume tfC1 "zzzz" [] ⟨"r3", "dddd", true⟩
      = ⟨⟨"r3", "dddd", true⟩, ⟨0.4 * 2, 2, 0, 0⟩⟩ := by
    refine scoreResume_eval tfC1 "zzzz" "r3" "dddd" 2 true (by decide) (by decide)
      (by decide) ?_ (jaccard_zero_of_no_overlap _ _ (by decide))
    rw [show preprocess_text "dddd" = "dddd" from by decide, hp]
    rfl
  have hrank : rank_resumes tfC1 rsC1 "zzzz" [] = [sC13, sC12, sC11, sC10] := by
    unfold rank_resumes
    rw [if_neg (by decide)]
    have hmap : rsC1.map (scoreResume tfC1 "zzzz" [])
        = [⟨⟨"r0", "aaaa", true⟩, ⟨0.4 * (1/2), 1/2, 0, 0⟩⟩,
            ⟨⟨"r1", "bbbb", true⟩, ⟨0.4 * 1, 1, 0, 0⟩⟩,
            ⟨⟨"r2", "cccc", true⟩, ⟨0.4 * (3/2), 3/2, 0, 0⟩⟩,
            ⟨⟨"r3", "dddd", true⟩, ⟨0.4 * 2, 2, 0, 0⟩⟩] := by
      simp only [rsC1, List.map]
      rw [h0, h1, h2, h3]
    rw [hmap]
    norm_num [List.insertionSort, List.orderedInsert, rankRel, sC10, sC11, sC12, sC13]
  have hvalid : rsC1.filter (fun r => r.parsing_success) = rsC1 := by decide
  have hfail : rsC1.filter (fun r => !r.parsing_success) = [] := by decide
  have hdesc : jobC1.description = "zzzz" := rfl
  have hkw : jobC1.keywords = ([] : List String) := rfl
  have hif : (if rsC1 ≠ [] then rank_resumes tfC1 rsC1 "zzzz" [] else [])
      = [sC13, sC12, sC11, sC10] := by
    rw [if_pos (show rsC1 ≠ [] from by decide)]
    exact hrank
  have hq : List.filter (fun r => decide ((3 : ℚ)/10 ≤ r.scores.composite_score))
      [sC13, sC12, sC11, sC10] = [sC13, sC12, sC11] := by
    norm_num [List.filter, sC10, sC11, sC12, sC13]
  have hsc : List.filter (fun s => decide ((0 : ℚ) < s))
      (List.map (fun r => r.scores.composite_score) [sC13, sC12, sC11, sC10])
      = [4/5, 3/5, 2/5, 1/5] := by
    norm_num [List.filter, List.map, sC10, sC11, sC12, sC13]
  have hstat : computeStatistics [4/5, 3/5, 2/5, 1/5] = stC1 := by
    norm_num [computeStatistics, listMax, listMin, listSum, sortAscQ,
      List.insertionSort, List.orderedInsert, max_def, min_def, List.foldl,
      List.getD, stC1, Statistics.mk.injEq]
  unfold match_resumes_to_job
  rw [if_neg (by decide), if_neg (by decide)]
  simp only [hvalid, hfail, hdesc, hkw, hif, hq, hsc, hstat]
  simp [repC1, rsC1, List.take, stC1]

/-- Claim C2: the ranking operation raises its validation error exactly when
the document list is empty (first) or the query description is empty
(second); no report accompanies an error, and with non-empty documents and
description no such error is raised (`errOf` result `none`). -/
theorem claim2_empty_input_validation (tf : String → String → ℚ) (rs : List Resume)
    (job : JobData) (thr : ℚ) :
    errOf (match_resumes_to_job tf rs job thr) =
      if rs = [] then some "No resumes provided"
      else if job.description = "" then some "Job description is empty"
      else none :=
  errOf_match tf rs job thr

/-- Claim C3, counterexample: a call with threshold 2, which lies outside
`[0, 1]`, completes without any validation error, refuting the claim that a
validation error is raised for out-of-range thresholds. -/
theorem claim3_counterexample :
    errOf (match_resumes_to_job tfZero rsC1 jobC1 2) = none ∧
      ¬ ((0 : ℚ) ≤ 2 ∧ (2 : ℚ) ≤ 1) := by
  constructor
  · rw [errOf_match]
    simp [rsC1, jobC1]
  · norm_num

/-- Claim C3, amended: the ranking operation performs no threshold
validation at all — whether it raises is independent of the threshold
(errors are determined solely by the empty-documents and empty-description
guards), and out-of-range thresholds are accepted. -/
theorem claim3_no_threshold_validation (tf : String → String → ℚ) (rs : List Resume)
    (job : JobData) (thr thr2 : ℚ) :
    errOf (match_resumes_to_job tf rs job thr) =
      errOf (match_resumes_to_job tf rs job thr2) := by
  rw [errOf_match, errOf_match]

/-- Claim C4, failing input: on the five-character input `ab\cd` the
normalizer keeps the backslash (the raw-string pattern `[^a-zA-Z0-9\\s]`
excludes a literal backslash from replacement) and returns the single token
`ab\cd`; had the backslash been replaced by a space as the claim states,
the residue (`ab` and `cd`, both of length 2) would have been dropped,
yielding no tokens.  The empty input does yield the empty sequence. -/
theorem claim4_backslash_failing_input :
    preprocess_tokens "ab\\cd" = ["ab\\cd"] ∧
      (splitWords ['a', 'b', ' ', 'c', 'd'] []).filter
          (fun w => !(stop_words.contains w) && 2 < w.length) = [] ∧
      preprocess_tokens "" = [] := by
  refine ⟨?_, ?_, ?_⟩ <;> decide

/-- Claim C5: a document with empty `raw_text` short-circuits to the
all-zero score breakdown (no signal computation, no exception — the model
is total), and it still appears in the ranked output. -/
theorem claim5_zero_text_short_circuit (tf : String → String → ℚ) (jd : String)
    (kw : List String) (r : Resume) (resumes : List Resume) (h : r.raw_text = "") :
    scoreResume tf jd kw r = ⟨r, zeroScores⟩ ∧
      (r ∈ resumes → (⟨r, zeroScores⟩ : ScoredResume) ∈ rank_resumes tf resumes jd kw) := by
  have h1 : scoreResume tf jd kw r = ⟨r, zeroScores⟩ := by
    unfold scoreResume
    rw [if_pos h]
  refine ⟨h1, fun hm => ?_⟩
  have hne : resumes ≠ [] := by
    intro hnil
    rw [hnil] at hm
    exact List.not_mem_nil r hm
  unfold rank_resumes
  rw [if_neg hne, List.mem_insertionSort, ← h1]
  exact List.mem_map_of_mem _ hm

/-- Claim C5, witness at a concrete empty-text resume. -/
theorem claim5_witness :
    scoreResume tfZero "job" [] rEmpty = ⟨rEmpty, zeroScores⟩ ∧
      (⟨rEmpty, zeroScores⟩ : ScoredResume) ∈ rank_resumes tfZero [rEmpty] "job" [] := by
  obtain ⟨h1, h2⟩ := claim5_zero_text_short_circuit tfZero "job" [] rEmpty [rEmpty] rfl
  exact ⟨h1, h2 (List.mem_singleton_self rEmpty)⟩

/-- Claim C8: the Jaccard similarity is symmetric, is 0 when either
normalized token set is empty, and otherwise equals intersection size over
union size. -/
theorem claim8_jaccard_symmetry (a b : String) :
    calculate_jaccard_similarity a b = calculate_jaccard_similarity b a ∧
      (tokenSet a = ∅ ∨ tokenSet b = ∅ → calculate_jaccard_similarity a b = 0) ∧
      (tokenSet a ≠ ∅ → tokenSet b ≠ ∅ →
        calculate_jaccard_similarity a b =
          ((tokenSet a ∩ tokenSet b).card : ℚ) / ((tokenSet a ∪ tokenSet b).card : ℚ)) := by
  refine ⟨?_, ?_, ?_⟩
  · unfold calculate_jaccard_similarity
    dsimp only
    simp only [Finset.inter_comm, Finset.union_comm, or_comm]
  · intro h
    unfold calculate_jaccard_similarity
    dsimp only
    rw [if_pos h]
  · intro ha hb
    have hu : tokenSet a ∪ tokenSet b ≠ ∅ := by
      intro h
      exact ha (Finset.union_eq_empty.mp h).1
    unfold calculate_jaccard_similarity
    dsimp only
    rw [if_neg (by tauto), if_neg hu]

/-- Claim C8, witness at concrete texts with non-empty token sets. -/
theorem claim8_witness :
    calculate_jaccard_similarity "python developer" "developer python here"
        = calculate_jaccard_similarity "developer python here" "python developer" ∧
      calculate_jaccard_similarity "python developer" "developer python here"
        = ((tokenSet "python developer" ∩ tokenSet "developer python here").card : ℚ) /
            ((tokenSet "python developer" ∪ tokenSet "developer python here").card : ℚ) := by
  obtain ⟨h1, _, h3⟩ := claim8_jaccard_symmetry "python developer" "developer python here"
  exact ⟨h1, h3 (by decide) (by decide)⟩

/-- Claim C9: with default weights (which sum to 1) and a TF-IDF model in
`[0, 1]` (cosine similarity of non-negative vectors), every component of
the composite score breakdown lies in `[0, 1]`. -/
theorem claim9_range_invariant (tf : String → String → ℚ)
    (hT : ∀ x y, 0 ≤ tf x y ∧ tf x y ≤ 1) (rt jd : String) (kws : List String) :
    0 ≤ (calculate_composite_score tf rt jd kws none).tfidf_score ∧
      (calculate_composite_score tf rt jd kws none).tfidf_score ≤ 1 ∧
      0 ≤ (calculate_composite_score tf rt jd kws none).jaccard_score ∧
      (calculate_composite_score tf rt jd kws none).jaccard_score ≤ 1 ∧
      0 ≤ (calculate_composite_score tf rt jd kws none).keyword_score ∧
      (calculate_composite_score tf rt jd kws none).keyword_score ≤ 1 ∧
      0 ≤ (calculate_composite_score tf rt jd kws none).composite_score ∧
      (calculate_composite_score tf rt jd kws none).composite_score ≤ 1 := by
  obtain ⟨ht0, ht1⟩ := tfidf_bounds tf hT rt jd
  obtain ⟨hj0, hj1⟩ := jaccard_bounds rt jd
  have e1 : (calculate_composite_score tf rt jd kws none).tfidf_score
      = calculate_tfidf_similarity tf rt jd := rfl
  have e2 : (calculate_composite_score tf rt jd kws none).jaccard_score
      = calculate_jaccard_similarity rt jd := rfl
  have e3 : (calculate_composite_score tf rt jd kws none).keyword_score
      = (if kws ≠ [] then calculate_keyword_match_score rt kws else 0) := rfl
  have e4 : (calculate_composite_score tf rt jd kws none).composite_score
      = 0.4 * calculate_tfidf_similarity tf rt jd
        + 0.3 * calculate_jaccard_similarity rt jd
        + 0.3 * (if kws ≠ [] then calculate_keyword_match_score rt kws else 0) := rfl
  have hk0 : 0 ≤ (if kws ≠ [] then calculate_keyword_match_score rt kws else 0) := by
    split_ifs with h
    · exact (keyword_bounds rt kws).1
    · norm_num
  have hk1 : (if kws ≠ [] then calculate_keyword_match_score rt kws else 0) ≤ 1 := by
    split_ifs with h
    · exact (keyword_bounds rt kws).2
    · norm_num
  rw [e1, e2, e3, e4]
  refine ⟨ht0, ht1, hj0, hj1, hk0, hk1, ?_, ?_⟩
  · have h1 : (0 : ℚ) ≤ 0.4 * calculate_tfidf_similarity tf rt jd := by
      apply mul_nonneg _ ht0
      norm_num
    have h2 : (0 : ℚ) ≤ 0.3 * calculate_jaccard_similarity rt jd := by
      apply mul_nonneg _ hj0
      norm_num
    have h3 : (0 : ℚ) ≤ 0.3 * (if kws ≠ [] then calculate_keyword_match_score rt kws else 0) := by
      apply mul_nonneg _ hk0
      norm_num
    linarith
  · nlinarith [ht1, hj1, hk1, ht0, hj0, hk0]

/-- Claim C9, witness with the zero TF-IDF model at concrete inputs. -/
theorem claim9_witness :
    0 ≤ (calculate_composite_score tfZero "alpha beta" "beta gamma" ["beta"] none).tfidf_score ∧
      (calculate_composite_score tfZero "alpha beta" "beta gamma" ["beta"] none).tfidf_score ≤ 1 ∧
      0 ≤ (calculate_composite_score tfZero "alpha beta" "beta gamma" ["beta"] none).jaccard_score ∧
      (calculate_composite_score tfZero "alpha beta" "beta gamma" ["beta"] none).jaccard_score ≤ 1 ∧
      0 ≤ (calculate_composite_score tfZero "alpha beta" "beta gamma" ["beta"] none).keyword_score ∧
      (calculate_composite_score tfZero "alpha beta" "beta gamma" ["beta"] none).keyword_score ≤ 1 ∧
      0 ≤ (calculate_composite_score tfZero "alpha beta" "beta gamma" ["beta"] none).composite_score ∧
      (calculate_composite_score tfZero "alpha beta" "beta gamma" ["beta"] none).composite_score ≤ 1 :=
  claim9_range_invariant tfZero (fun _ _ => ⟨le_refl 0, zero_le_one⟩) "alpha beta" "beta gamma" ["beta"]

/-- Claim C10: a weights mapping that omits a key falls back to the default
for that key (0.4 / 0.3 / 0.3), not to 0: with a weights dict holding only
the tfidf key at 1.0 the
composite is `1·tfidf + 0.3·jaccard + 0.3·keyword`, and at concrete inputs
with Jaccard 1/3 the composite is 0.1 — nonzero precisely because the
missing keys defaulted to 0.3. -/
theorem claim10_missing_weight_defaults :
    (∀ (tf : String → String → ℚ) (rt jd : String) (kws : List String),
        (calculate_composite_score tf rt jd kws (some ⟨some 1, none, none⟩)).composite_score
          = 1 * (calculate_composite_score tf rt jd kws (some ⟨some 1, none, none⟩)).tfidf_score
            + 0.3 * (calculate_composite_score tf rt jd kws (some ⟨some 1, none, none⟩)).jaccard_score
            + 0.3 * (calculate_composite_score tf rt jd kws (some ⟨some 1, none, none⟩)).keyword_score) ∧
      (calculate_composite_score tfZero "pythonista developer" "developer here" []
          (some ⟨some 1, none, none⟩)).composite_score = 1/10 ∧ ((1/10 : ℚ) ≠ 0) := by
  refine ⟨fun tf rt jd kws => rfl, ?_, by norm_num⟩
  have hj : calculate_jaccard_similarity "pythonista developer" "developer here" = 1/3 := by
    unfold calculate_jaccard_similarity
    dsimp only
    rw [if_neg (by decide), if_neg (by decide)]
    have h1 : (tokenSet "pythonista developer" ∩ tokenSet "developer here").card = 1 := by decide
    have h2 : (tokenSet "pythonista developer" ∪ tokenSet "developer here").card = 3 := by decide
    rw [h1, h2]
    norm_num
  have ht : calculate_tfidf_similarity tfZero "pythonista developer" "developer here" = 0 := by
    unfold calculate_tfidf_similarity
    dsimp only
    rw [if_neg (by decide)]
    rfl
  have e : (calculate_composite_score tfZero "pythonista developer" "developer here" []
        (some ⟨some 1, none, none⟩)).composite_score
      = 1 * calculate_tfidf_similarity tfZero "pythonista developer" "developer here"
        + 0.3 * calculate_jaccard_similarity "pythonista developer" "developer here"
        + 0.3 * 0 := rfl
  rw [e, ht, hj]
  norm_num

/-- Full evaluation of the stable-tie scenario: documents scoring
0.9, 0.5, 0.9 in input order are ranked doc0, doc2, doc1. -/
theorem rankC6_eval :
    rank_resumes tfC6 rsC6 "zzzz" [] = [sC6A, sC6C, sC6B] := by
  have hp : preprocess_text "zzzz" = "zzzz" := by decide
  have h0 : scoreResume tfC6 "zzzz" [] ⟨"doc0", "aaaa", true⟩
      = ⟨⟨"doc0", "aaaa", true⟩, ⟨0.4 * (9/4), 9/4, 0, 0⟩⟩ := by
    refine scoreResume_eval tfC6 "zzzz" "doc0" "aaaa" (9/4) true (by decide) (by decide)
      (by decide) ?_ (jaccard_zero_of_no_overlap _ _ (by decide))
    rw [show preprocess_text "aaaa" = "aaaa" from by decide, hp]
    rfl
  have h1 : scoreResume tfC6 "zzzz" [] ⟨"doc1", "bbbb", true⟩
      = ⟨⟨"doc1", "bbbb", true⟩, ⟨0.4 * (5/4), 5/4, 0, 0⟩⟩ := by
    refine scoreResume_eval tfC6 "zzzz" "doc1" "bbbb" (5/4) true (by decide) (by decide)
      (by decide) ?_ (jaccard_zero_of_no_overlap _ _ (by decide))
    rw [show preprocess_text "bbbb" = "bbbb" from by decide, hp]
    rfl
  have h2 : scoreResume tfC6 "zzzz" [] ⟨"doc2", "cccc", true⟩
      = ⟨⟨"doc2", "cccc", true⟩, ⟨0.4 * (9/4), 9/4, 0, 0⟩⟩ := by
    refine scoreResume_eval tfC6 "zzzz" "doc2" "cccc" (9/4) true (by decide) (by decide)
      (by decide) ?_ (jaccard_zero_of_no_overlap _ _ (by decide))
    rw [show preprocess_text "cccc" = "cccc" from by decide, hp]
    rfl
  unfold rank_resumes
  rw [if_neg (by decide)]
  have hmap : rsC6.map (scoreResume tfC6 "zzzz" [])
      = [⟨⟨"doc0", "aaaa", true⟩, ⟨0.4 * (9/4), 9/4, 0, 0⟩⟩,
          ⟨⟨"doc1", "bbbb", true⟩, ⟨0.4 * (5/4), 5/4, 0, 0⟩⟩,
          ⟨⟨"doc2", "cccc", true⟩, ⟨0.4 * (9/4), 9/4, 0, 0⟩⟩] := by
    simp only [rsC6, List.map]
    rw [h0, h1, h2]
  rw [hmap]
  norm_num [List.insertionSort, List.orderedInsert, rankRel, sC6A, sC6B, sC6C]

/-- Claim C1, amended: the reported median is the element at index
`len(scores) // 2` of the ascending-sorted nonzero-score list — on even
counts this is the UPPER-middle element, not the lower-middle one — and the
other statistics are max, min and mean of that list; for nonzero scores
0.2, 0.4, 0.6, 0.8 the median is 0.6 (with mean 0.5, max 0.8, min 0.2). -/
theorem claim1_median_upper_middle :
    (∀ (tf : String → String → ℚ) (rs : List Resume) (job : JobData) (thr : ℚ)
        (rep : MatchReport) (st : Statistics),
        match_resumes_to_job tf rs job thr = Except.ok rep →
        rep.statistics = some st →
        st.max_score = listMax (nzScores rep) ∧
          st.min_score = listMin (nzScores rep) ∧
          st.avg_score = listSum (nzScores rep) / ((nzScores rep).length : ℚ) ∧
          st.median_score = (sortAscQ (nzScores rep)).getD ((nzScores rep).length / 2) 0) ∧
      statsOf (match_resumes_to_job tfC1 rsC1 jobC1 (3/10)) = some stC1 ∧
      stC1.median_score = 3/5 ∧ stC1.avg_score = 1/2 ∧
      stC1.max_score = 4/5 ∧ stC1.min_score = 1/5 := by
  refine ⟨?_, ?_, rfl, rfl, rfl, rfl⟩
  · intro tf rs job thr rep st heq hst
    unfold match_resumes_to_job at heq
    by_cases h1 : rs = []
    · rw [if_pos h1] at heq
      exact absurd heq (by simp)
    rw [if_neg h1] at heq
    by_cases h2 : job.description = ""
    · rw [if_pos h2] at heq
      exact absurd heq (by simp)
    rw [if_neg h2] at heq
    have hrep : rep = _ := (Except.ok.inj heq).symm
    subst hrep
    dsimp only at hst ⊢
    by_cases hc : ((if rs.filter (fun r => r.parsing_success) ≠ [] then
          rank_resumes tf (rs.filter fun r => r.parsing_success) job.description job.keywords
        else []) ≠ [] ∧
        ((if rs.filter (fun r => r.parsing_success) ≠ [] then
            rank_resumes tf (rs.filter fun r => r.parsing_success) job.description job.keywords
          else []).map fun r => r.scores.composite_score).filter (fun s => 0 < s) ≠ [])
    · rw [if_pos hc] at hst
      have hst2 := (Option.some.inj hst).symm
      subst hst2
      exact ⟨rfl, rfl, rfl, rfl⟩
    · rw [if_neg hc] at hst
      exact absurd hst (by simp)
  · rw [matchC1_eval]
    rfl

/-- Claim C1, counterexample to the original statement: a run whose
ascending-sorted nonzero scores are exactly 0.2, 0.4, 0.6, 0.8 reports
median 0.6, not the claimed 0.4. -/
theorem claim1_counterexample :
    statsOf (match_resumes_to_job tfC1 rsC1 jobC1 (3/10)) = some stC1 ∧
      sortAscQ (nzScores repC1) = [1/5, 2/5, 3/5, 4/5] ∧
      stC1.median_score = 3/5 ∧ ((3 : ℚ)/5 ≠ 2/5) := by
  refine ⟨?_, ?_, rfl, by norm_num⟩
  · rw [matchC1_eval]
    rfl
  · norm_num [nzScores, repC1, sC10, sC11, sC12, sC13, sortAscQ, List.insertionSort,
      List.orderedInsert, List.filter, List.map]

/-- Claim C1, witness: the general statement applied to the concrete
statistics-scenario run. -/
theorem claim1_witness :
    stC1.max_score = listMax (nzScores repC1) ∧
      stC1.min_score = listMin (nzScores repC1) ∧
      stC1.avg_score = listSum (nzScores repC1) / ((nzScores repC1).length : ℚ) ∧
      stC1.median_score = (sortAscQ (nzScores repC1)).getD ((nzScores repC1).length / 2) 0 :=
  claim1_median_upper_middle.1 tfC1 rsC1 jobC1 (3/10) repC1 stC1 matchC1_eval rfl

/-- Claim C6: the ranked output is sorted descending by composite score;
documents with equal composite scores keep their original relative order
(the sublist at any fixed score is unchanged from the scored input order);
and three documents scoring 0.9, 0.5, 0.9 in input order come out as
doc0, doc2, doc1. -/
theorem claim6_stable_descending_order :
    (∀ (tf : String → String → ℚ) (rs : List Resume) (jd : String) (kw : List String),
        List.Pairwise (fun x y : ScoredResume =>
          y.scores.composite_score ≤ x.scores.composite_score) (rank_resumes tf rs jd kw)) ∧
      (∀ (tf : String → String → ℚ) (rs : List Resume) (jd : String) (kw : List String) (q : ℚ),
        (rank_resumes tf rs jd kw).filter (fun r => r.scores.composite_score = q)
          = (rs.map (scoreResume tf jd kw)).filter (fun r => r.scores.composite_score = q)) ∧
      rank_resumes tfC6 rsC6 "zzzz" [] = [sC6A, sC6C, sC6B] := by
  refine ⟨?_, ?_, rankC6_eval⟩
  · intro tf rs jd kw
    unfold rank_resumes
    split_ifs with h
    · exact List.Pairwise.nil
    · exact List.sorted_insertionSort rankRel _
  · intro tf rs jd kw q
    unfold rank_resumes
    split_ifs with h
    · rw [h]
      rfl
    · exact filter_insertionSort_key q _

/-- Claim C7: every successful report satisfies the partition invariant
`valid + failed = total`, counts as qualified exactly the ranked entries
with composite at least the threshold (a predicate filter, not a prefix),
and exposes the first 10 qualified entries as `top_candidates`. -/
theorem claim7_report_invariants (tf : String → String → ℚ) (rs : List Resume)
    (job : JobData) (thr : ℚ) (rep : MatchReport)
    (heq : match_resumes_to_job tf rs job thr = Except.ok rep) :
    rep.valid_resumes + rep.failed_resumes = rep.total_resumes ∧
      rep.qualified_resumes
        = (rep.ranked_resumes.filter fun r => thr ≤ r.scores.composite_score).length ∧
      rep.top_candidates
        = (rep.ranked_resumes.filter fun r => thr ≤ r.scores.composite_score).take 10 := by
  unfold match_resumes_to_job at heq
  by_cases h1 : rs = []
  · rw [if_pos h1] at heq
    exact absurd heq (by simp)
  rw [if_neg h1] at heq
  by_cases h2 : job.description = ""
  · rw [if_pos h2] at heq
    exact absurd heq (by simp)
  rw [if_neg h2] at heq
  have hrep : rep = _ := (Except.ok.inj heq).symm
  subst hrep
  dsimp only
  exact ⟨length_filter_partition _ _, rfl, rfl⟩

/-- Claim C7, witness: the invariants at the concrete statistics-scenario
report. -/
theorem claim7_witness :
    repC1.valid_resumes + repC1.failed_resumes = repC1.total_resumes ∧
      repC1.qualified_resumes
        = (repC1.ranked_resumes.filter fun r => (3 : ℚ)/10 ≤ r.scores.composite_score).length ∧
      repC1.top_candidates
        = (repC1.ranked_resumes.filter fun r => (3 : ℚ)/10 ≤ r.scores.composite_score).take 10 :=
  claim7_report_invariants tfC1 rsC1 jobC1 (3/10) repC1 matchC1_eval

end ResumeMatcher
